import Mathlib

/-!
Shallow embedding of the conversion pipeline of py-exe_bundler.py.

The program is a GUI tool whose background worker converts a folder into a
single executable.  The worker function convert_app (lines 261-458) runs a
dependency provisioner, validates the two user paths, scans the source
directory for a target, writes a launcher stub, invokes PyInstaller, cleans
up temporary artifacts and relays typed events over a queue.  The embedding
models the worker as a pure function from an environment (the outcomes of
every filesystem, network and subprocess operation it performs) to the
queue trace plus the artifacts it produced.
-/

namespace PyExeBundler

/-- Model of os.path.join, using the "/" separator. -/
def osJoin (a b : String) : String := a ++ "/" ++ b

/-- Python str.strip removes this whitespace at both ends. -/
def isPySpace (c : Char) : Bool :=
  c == ' ' || c == '\t' || c == '\n' || c == '\r' || c == '\x0b' || c == '\x0c'

/-- Model of Python str.strip(). -/
def pyStrip (s : String) : String :=
  String.mk (((s.data.dropWhile isPySpace).reverse.dropWhile isPySpace).reverse)

/-- Model of Python str.endswith. -/
def endsWithStr (s suf : String) : Bool := List.isSuffixOf suf.data s.data

/-- Model of os.path.basename for "/"-separated paths: the characters after
the last separator. -/
def osBasename (p : String) : String :=
  String.mk ((p.data.reverse.takeWhile (fun c => c != '/')).reverse)

/-- One value of the DEPENDENCIES table (lines 38-44). -/
structure DepInfo where
  pip_name : String
  version : String
  url : String
deriving DecidableEq

/-- The single entry of the DEPENDENCIES table. -/
def pyinstallerInfo : DepInfo :=
  { pip_name := "pyinstaller"
    version := "5.13.0"
    url := "https://files.pythonhosted.org/packages/99/6e/d7d76d4d15f6351f1f942256633b795eec3d6c691d985869df1bf319cd9d/pyinstaller-6.12.0-py3-none-win_amd64.whl" }

/-- DEPENDENCIES dictionary (lines 38-44), as an association list. -/
def DEPENDENCIES : List (String × DepInfo) := [("pyinstaller", pyinstallerInfo)]

/-- Environment of ensure_dependencies: the outcome of every filesystem,
network and archive operation it can perform.  An error field returning
some msg means the corresponding call raises with that message. -/
structure DepEnv where
  deps_dir : String
  tmpdir : String
  pathExists : String → Bool
  downloadErr : String → Option String
  extractErr : String → Option String
  removeTempErr : String → Option String
  sys_path : List String

/-- Side effects performed by ensure_dependencies, in order. -/
inductive DepAction where
  | download (url temp_file : String)
  | extractTo (temp_file dep_path : String)
  | removeTemp (temp_file : String)
  | addSysPath (dep_path : String)
deriving DecidableEq

/-- Install location of a dependency (line 147). -/
def depPath (denv : DepEnv) (name : String) (info : DepInfo) : String :=
  osJoin denv.deps_dir (name ++ "-" ++ info.version)

/-- Loop body of ensure_dependencies (lines 146-175): per dependency, check
for the install path; when absent, download the archive to a temporary
file, extract it to the install path, delete the temporary file; in every
case insert the install path at the front of sys.path when absent there. -/
def ensureDepsGo (denv : DepEnv) :
    List (String × DepInfo) → Bool → List String → List DepAction →
    Except String (Bool × List String × List DepAction)
  | [], installed, sys_path, acts => Except.ok (installed, sys_path, acts)
  | (name, info) :: rest, installed, sys_path, acts =>
    let dep_path := depPath denv name info
    if denv.pathExists dep_path then
      let step :=
        if dep_path ∈ sys_path then (sys_path, acts)
        else (dep_path :: sys_path, acts ++ [DepAction.addSysPath dep_path])
      ensureDepsGo denv rest installed step.1 step.2
    else
      let temp_file := osJoin denv.tmpdir (name ++ ".tar.gz")
      match denv.downloadErr info.url with
      | some e => Except.error e
      | none =>
        match denv.extractErr dep_path with
        | some e => Except.error e
        | none =>
          match denv.removeTempErr temp_file with
          | some e => Except.error e
          | none =>
            let acts2 := acts ++ [DepAction.download info.url temp_file,
              DepAction.extractTo temp_file dep_path, DepAction.removeTemp temp_file]
            let step :=
              if dep_path ∈ sys_path then (sys_path, acts2)
              else (dep_path :: sys_path, acts2 ++ [DepAction.addSysPath dep_path])
            ensureDepsGo denv rest true step.1 step.2

/-- ensure_dependencies (lines 140-182): returns whether any dependency had
to be installed, together with the final sys.path and the performed
actions; any download or extraction error propagates as an exception. -/
def ensure_dependencies (denv : DepEnv) :
    Except String (Bool × List String × List DepAction) :=
  ensureDepsGo denv DEPENDENCIES false denv.sys_path []

/-- Outcome projection: some installed-flag on normal return, none when the
call raised. -/
def depsOk : Except String (Bool × List String × List DepAction) → Option Bool
  | Except.ok (b, _, _) => some b
  | Except.error _ => none

/-- One event of the relay queue (consumed at lines 234-259). -/
inductive Event where
  | log (msg : String)
  | progress (value : Nat)
  | error (msg : String)
  | success (msg : String)
  | done
deriving DecidableEq

/-- Recognizer for the terminal done event. -/
def isDone : Event → Bool
  | Event.done => true
  | _ => false

/-- Recognizer for error events. -/
def isErrorEv : Event → Bool
  | Event.error _ => true
  | _ => false

/-- Number of done events in a trace. -/
def doneCount (l : List Event) : Nat := l.countP isDone

/-- One entry of os.listdir: a name, plus whether the entry is a directory.
The scanner (lines 290-291) looks only at the name. -/
structure DirEntry where
  name : String
  isDir : Bool
deriving DecidableEq

/-- Suffix filter of line 290. -/
def exeFiles (names : List String) : List String :=
  names.filter (fun f => endsWithStr f ".exe")

/-- Suffix filter of line 291. -/
def pyFiles (names : List String) : List String :=
  names.filter (fun f => endsWithStr f ".py")

/-- Target selection of lines 293-308: none when neither filter matched;
otherwise the first .exe entry, else the first .py entry.  The Bool is
is_python. -/
def scanTarget (names : List String) : Option (String × Bool) :=
  match exeFiles names with
  | f :: _ => some (f, false)
  | [] =>
    match pyFiles names with
    | g :: _ => some (g, true)
    | [] => none

/-- The launcher stub written at lines 329-390: a fixed text template per
kind, parameterized only by the basename of the discovered target. -/
structure LauncherStub where
  is_python : Bool
  target_basename : String
deriving DecidableEq

/-- Stub produced for a discovered main file (lines 350 and 381 embed
os.path.basename(main_file) into the template). -/
def mkStub (is_python : Bool) (main_file : String) : LauncherStub :=
  { is_python := is_python, target_basename := osBasename main_file }

/-- Base directory resolved by the generated stub at run time (lines
341-348 and 372-379): the frozen-bundle extraction directory sys._MEIPASS
when frozen, else the directory containing the stub. -/
def stubBaseDir (frozen : Bool) (meipass own_dir : String) : String :=
  if frozen then meipass else own_dir

/-- What the generated stub does with the resolved target path. -/
inductive StubAction where
  | runScript (script_path : String) (sys_path_head : String)
  | spawnChild (exe_path : String)
deriving DecidableEq

/-- Runtime behavior written into the stub template: join the base
directory with the stored basename; a script-kind stub inserts the base
directory at the front of sys.path and runs the target via
runpy.run_path (lines 350-356); an executable-kind stub spawns the target
as a child process (lines 381-386). -/
def stubRun (stub : LauncherStub) (frozen : Bool) (meipass own_dir : String) :
    StubAction :=
  let base_dir := stubBaseDir frozen meipass own_dir
  let target := osJoin base_dir stub.target_basename
  if stub.is_python then StubAction.runScript target base_dir
  else StubAction.spawnChild target

/-- subprocess.run([exe_path], check=True) at line 386: a non-zero child
exit code raises CalledProcessError. -/
def spawnCheck (returncode : Int) : Except String Unit :=
  if returncode = 0 then Except.ok () else Except.error "CalledProcessError"

/-- The PyInstaller argument list built at lines 404-414. -/
def pyinstaller_args (temp_script output_path source_path : String)
    (window : Bool) : List String :=
  let args := [temp_script,
    "--distpath", output_path,
    "--workpath", osJoin output_path "build",
    "--specpath", output_path,
    "--onefile",
    "--add-data", source_path ++ "/*;."]
  if window then args ++ ["--windowed"] else args

/-- Environment of one convert_app run: the raw GUI inputs plus the outcome
of every external operation the worker performs.  An error field holding
some msg means the corresponding call raises with that message. -/
structure Env where
  source_raw : String
  output_raw : String
  depEnv : DepEnv
  sourceExists : Bool
  listing : List DirEntry
  outputExists : Bool
  mkdirErr : Option String
  stubWriteErr : Option String
  importErr : Option String
  window_var : Bool
  pyinstallerErr : Option String
  removeStubErr : Option String
  buildDirExists : Bool
  rmBuildErr : Option String
  specExists : Bool
  rmSpecErr : Option String

/-- How the try-block of convert_app was left. -/
inductive BodyExit where
  | normal
  | earlyReturn
  | restart
  | exn (msg : String)
deriving DecidableEq

/-- Observable outcome of one convert_app run: the queue trace, the logged
warnings, and the produced artifacts. -/
structure BodyOut where
  events : List Event
  warnings : List String
  exit : BodyExit
  scanned : Bool
  outputStageReached : Bool
  stubPath : Option String
  stub : Option LauncherStub
  stubWritten : Bool
  stubRemoved : Bool
  args : Option (List String)

/-- Initial outcome record. -/
def out0 : BodyOut :=
  { events := [], warnings := [], exit := BodyExit.normal, scanned := false,
    outputStageReached := false, stubPath := none, stub := none,
    stubWritten := false, stubRemoved := false, args := none }

/-- Message of the success event (line 449). -/
def successMsg (output_path : String) : String :=
  "Folder converted to single EXE successfully!\nOutput location: " ++ output_path

/-- Cleanup block of lines 430-445: remove the stub, then the build
directory when present, then the spec file when present; the first failure
aborts the block.  Returns whether the stub got removed and the message of
the failure, when one occurred. -/
def cleanupResult (env : Env) : Bool × Option String :=
  match env.removeStubErr with
  | some e => (false, some e)
  | none =>
    match (if env.buildDirExists then env.rmBuildErr else none) with
    | some e => (true, some e)
    | none =>
      match (if env.specExists then env.rmSpecErr else none) with
      | some e => (true, some e)
      | none => (true, none)

/-- Lines 430-449: best-effort cleanup (failures only logged as warnings,
and then neither the cleanup log line nor progress 100 is queued), followed
unconditionally by the completion log and the success event. -/
def stageFinish (env : Env) (output_path : String) (st : BodyOut)
    (evs : List Event) : BodyOut :=
  match cleanupResult env with
  | (removed, some e) =>
    { st with
      events := evs ++ [Event.log "Conversion completed successfully!",
        Event.success (successMsg output_path)],
      warnings := ["Failed to clean up temporary files: " ++ e],
      stubRemoved := removed,
      exit := BodyExit.normal }
  | (removed, none) =>
    { st with
      events := evs ++ [Event.log "Cleaned up temporary files and build artifacts",
        Event.progress 100,
        Event.log "Conversion completed successfully!",
        Event.success (successMsg output_path)],
      warnings := [],
      stubRemoved := removed,
      exit := BodyExit.normal }

/-- Lines 396-428: import PyInstaller, build the argument list, optionally
append the windowed flag, run PyInstaller; any failure re-raises. -/
def stageBundle (env : Env) (source_path output_path temp_script : String)
    (st : BodyOut) (evs : List Event) : BodyOut :=
  let evs := evs ++ [Event.log "Configuring PyInstaller...", Event.progress 60]
  match env.importErr with
  | some e => { st with events := evs, exit := BodyExit.exn e }
  | none =>
    let args := pyinstaller_args temp_script output_path source_path env.window_var
    let evs := evs ++
      (if env.window_var then
        [Event.log "Window mode enabled - console will be hidden in final EXE"]
      else []) ++
      [Event.log "Running PyInstaller...", Event.progress 80]
    let st := { st with args := some args }
    match env.pyinstallerErr with
    | some e => { st with events := evs, exit := BodyExit.exn e }
    | none => stageFinish env output_path st evs

/-- Lines 323-394: write the launcher stub at source_path/launcher.py; a
write failure re-raises. -/
def stageStub (env : Env) (source_path output_path main_file : String)
    (is_python : Bool) (evs : List Event) (st : BodyOut) : BodyOut :=
  let evs := evs ++ [Event.log "Creating launcher script...", Event.progress 40]
  let temp_script := osJoin source_path "launcher.py"
  let st := { st with stubPath := some temp_script }
  match env.stubWriteErr with
  | some e => { st with events := evs, exit := BodyExit.exn e }
  | none =>
    let st := { st with stubWritten := true, stub := some (mkStub is_python main_file) }
    stageBundle env source_path output_path temp_script st evs

/-- Lines 312-321: create the output directory when missing; on failure,
queue an error and an explicit done event and return. -/
def stageOutput (env : Env) (source_path output_path main_file : String)
    (is_python : Bool) (evs : List Event) (st : BodyOut) : BodyOut :=
  let st := { st with outputStageReached := true }
  if env.outputExists then
    stageStub env source_path output_path main_file is_python evs st
  else
    match env.mkdirErr with
    | some e =>
      { st with
        events := evs ++ [Event.error ("Could not create output directory: " ++ e),
          Event.done],
        exit := BodyExit.earlyReturn }
    | none =>
      stageStub env source_path output_path main_file is_python
        (evs ++ [Event.log ("Created output directory: " ++ output_path)]) st

/-- The try-block of convert_app (lines 262-449): provisioning, input
validation, scanning, then the later stages.  Each early return that
queues an explicit done event is marked earlyReturn. -/
def convertBody (env : Env) : BodyOut :=
  match ensure_dependencies env.depEnv with
  | Except.error e => { out0 with exit := BodyExit.exn e }
  | Except.ok (true, _, _) => { out0 with exit := BodyExit.restart }
  | Except.ok (false, _, _) =>
    let source_path := pyStrip env.source_raw
    let output_path := pyStrip env.output_raw
    if source_path = "" ∨ output_path = "" then
      { out0 with
        events := [Event.error "Please select source and output folders", Event.done],
        exit := BodyExit.earlyReturn }
    else if env.sourceExists = false then
      { out0 with
        events := [Event.error ("Source folder does not exist: " ++ source_path),
          Event.done],
        exit := BodyExit.earlyReturn }
    else
      let evs := [Event.progress 0, Event.log "Starting conversion process...",
        Event.log ("Scanning source directory: " ++ source_path)]
      match scanTarget (env.listing.map DirEntry.name) with
      | none =>
        { out0 with
          events := evs ++ [Event.error "No EXE or Python files found in source folder",
            Event.done],
          exit := BodyExit.earlyReturn, scanned := true }
      | some (f, is_python) =>
        let main_file := osJoin source_path f
        let foundMsg :=
          if is_python then "Found Python file: " ++ main_file
          else "Found EXE file: " ++ main_file
        stageOutput env source_path output_path main_file is_python
          (evs ++ [Event.log foundMsg, Event.progress 20])
          { out0 with scanned := true }

/-- convert_app (lines 261-458): run the body; the outer except handler
(lines 451-455) queues a log line and an error event when the body raised;
the finally clause (lines 457-458) queues one done event in every case. -/
def convert_app (env : Env) : BodyOut :=
  let b := convertBody env
  let evs :=
    match b.exit with
    | BodyExit.exn e =>
      b.events ++ [Event.log ("ERROR: An error occurred: " ++ e),
        Event.error ("An error occurred: " ++ e)]
    | _ => b.events
  { b with events := evs ++ [Event.done] }

/-- Provisioning returned normally with installed = false. -/
def depsOkFalse (env : Env) : Bool :=
  depsOk (ensure_dependencies env.depEnv) == some false

/-- Both stripped paths are non-empty and the source directory exists
(lines 273-283), after a non-restarting provisioning run. -/
def passesValidation (env : Env) : Bool :=
  depsOkFalse env && !(pyStrip env.source_raw == "")
    && !(pyStrip env.output_raw == "") && env.sourceExists

/-- The scanner found a target (lines 293-308). -/
def scanFound (env : Env) : Bool :=
  (scanTarget (env.listing.map DirEntry.name)).isSome

/-- The run reaches the output-preparation stage (line 312). -/
def outputStageB (env : Env) : Bool := passesValidation env && scanFound env

/-- The output directory exists or was created successfully. -/
def outputReady (env : Env) : Bool := env.outputExists || env.mkdirErr.isNone

/-- The run reaches the stub-write stage (line 327). -/
def stubStageB (env : Env) : Bool := outputStageB env && outputReady env

/-- The stub got written (lines 329-391). -/
def stubOkB (env : Env) : Bool := stubStageB env && env.stubWriteErr.isNone

/-- The PyInstaller import succeeded, so the argument list got built. -/
def bundleStageB (env : Env) : Bool := stubOkB env && env.importErr.isNone

/-- The PyInstaller run itself succeeded (line 423). -/
def bundleOkB (env : Env) : Bool := bundleStageB env && env.pyinstallerErr.isNone

/-- The run takes one of the early returns that queue an explicit done
event before the finally clause queues another (lines 276, 282, 296, 320). -/
def validationReturn (env : Env) : Bool :=
  depsOkFalse env && !(stubStageB env)

/-- The stub path convert_app uses (line 327). -/
def tempScriptOf (env : Env) : String :=
  osJoin (pyStrip env.source_raw) "launcher.py"

/-- A path lies directly inside a directory, as the data-embedding glob
dir/* of line 410 requires. -/
def inDirStar (dir p : String) : Prop := ∃ n, n ≠ "" ∧ p = osJoin dir n

/-- The key events of a trace: progress values, success, done — the log
lines dropped. -/
inductive KeyEvent where
  | prog (value : Nat)
  | succ
  | fin
deriving DecidableEq

/-- Project one event to its key event, when it has one. -/
def keyOf : Event → Option KeyEvent
  | Event.progress n => some (KeyEvent.prog n)
  | Event.success _ => some KeyEvent.succ
  | Event.done => some KeyEvent.fin
  | _ => none

/-- Key-event subsequence of a trace. -/
def keyTrace (l : List Event) : List KeyEvent := l.filterMap keyOf

/-- Hypotheses under which the run reaches the PyInstaller stage with
target f and kind is_python. -/
def ReachesBundle (env : Env) (f : String) (is_python : Bool) : Prop :=
  depsOk (ensure_dependencies env.depEnv) = some false ∧
  pyStrip env.source_raw ≠ "" ∧ pyStrip env.output_raw ≠ "" ∧
  env.sourceExists = true ∧
  scanTarget (env.listing.map DirEntry.name) = some (f, is_python) ∧
  (env.outputExists = true ∨ env.mkdirErr = none) ∧
  env.stubWriteErr = none ∧ env.importErr = none ∧ env.pyinstallerErr = none

/-- Dependency environment with every dependency already installed. -/
def denvAllPresent : DepEnv :=
  { deps_dir := "deps", tmpdir := "tmp",
    pathExists := fun _ => true,
    downloadErr := fun _ => none,
    extractErr := fun _ => none,
    removeTempErr := fun _ => none,
    sys_path := [] }

/-- Dependency environment with the dependency absent and a clean install. -/
def denvAbsent : DepEnv := { denvAllPresent with pathExists := fun _ => false }

/-- Dependency environment with the dependency absent and a failing
download. -/
def denvDownloadFail : DepEnv :=
  { denvAbsent with downloadErr := fun _ => some "download failed" }

/-- Environment of a fully successful conversion of a script target. -/
def envSuccess : Env :=
  { source_raw := "src", output_raw := "out",
    depEnv := denvAllPresent,
    sourceExists := true,
    listing := [{ name := "app.py", isDir := false }],
    outputExists := true,
    mkdirErr := none,
    stubWriteErr := none,
    importErr := none,
    window_var := false,
    pyinstallerErr := none,
    removeStubErr := none,
    buildDirExists := true,
    rmBuildErr := none,
    specExists := true,
    rmSpecErr := none }

/-- Environment whose source path is whitespace only: the validation
early-return at lines 273-277 fires. -/
def envEmptyPath : Env := { envSuccess with source_raw := "  " }

/-- Environment whose source directory holds no .exe or .py entry. -/
def envNoTarget : Env :=
  { envSuccess with listing := [{ name := "data.txt", isDir := false }] }

/-- Environment where the PyInstaller run raises. -/
def envPyFail : Env := { envSuccess with pyinstallerErr := some "boom" }

/-- Environment where deleting the stub during cleanup raises. -/
def envCleanupFail : Env := { envSuccess with removeStubErr := some "locked" }

/-- Environment where provisioning installs the dependency and signals a
restart. -/
def envRestart : Env := { envSuccess with depEnv := denvAbsent }

/-- Environment where the dependency download raises. -/
def envDepFail : Env := { envSuccess with depEnv := denvDownloadFail }

/-- Environment whose source listing holds one directory named like an
executable. -/
def envDirListing : Env :=
  { envSuccess with listing := [{ name := "sub.exe", isDir := true }] }

theorem cp_stageFinish (env : Env) (op : String) (st : BodyOut)
    (evs : List Event) :
    (stageFinish env op st evs).events.countP isDone =
      evs.countP isDone := by
  unfold stageFinish
  split <;> simp [List.countP_append, List.countP_cons, isDone]

theorem cp_stageBundle (env : Env) (sp op ts : String) (st : BodyOut)
    (evs : List Event) :
    (stageBundle env sp op ts st evs).events.countP isDone =
      evs.countP isDone := by
  unfold stageBundle
  cases hie : env.importErr
  · cases hpe : env.pyinstallerErr <;> cases hw : env.window_var <;>
      simp [cp_stageFinish, List.countP_append, List.countP_cons, isDone]
  · simp [List.countP_append, List.countP_cons, isDone]

theorem cp_stageStub (env : Env) (sp op mf : String) (ispy : Bool)
    (evs : List Event) (st : BodyOut) :
    (stageStub env sp op mf ispy evs st).events.countP isDone =
      evs.countP isDone := by
  unfold stageStub
  cases hwe : env.stubWriteErr <;>
    simp [cp_stageBundle, List.countP_append, List.countP_cons, isDone]

theorem cp_stageOutput (env : Env) (sp op mf : String) (ispy : Bool)
    (evs : List Event) (st : BodyOut) :
    (stageOutput env sp op mf ispy evs st).events.countP isDone =
      evs.countP isDone + (if outputReady env then 0 else 1) := by
  unfold stageOutput
  cases hex : env.outputExists
  · cases hmk : env.mkdirErr <;>
      simp [hex, hmk, outputReady, cp_stageStub, List.countP_append,
        List.countP_cons, isDone]
  · simp [hex, outputReady, cp_stageStub]

theorem cp_body (env : Env) :
    (convertBody env).events.countP isDone =
      (if validationReturn env then 1 else 0) := by
  unfold convertBody
  rcases hdr : ensure_dependencies env.depEnv with e | ⟨b, sp, acts⟩
  · simp [validationReturn, depsOkFalse, hdr, depsOk, out0]
  · cases b
    · by_cases hs : pyStrip env.source_raw = "" ∨ pyStrip env.output_raw = ""
      · have hvr : validationReturn env = true := by
          simp [validationReturn, depsOkFalse, hdr, depsOk, stubStageB,
            outputStageB, passesValidation]
          rcases hs with hs | hs <;> simp [hs]
        simp [hs, hvr, out0, List.countP_cons, isDone]
      · simp only [not_or] at hs
        by_cases hse : env.sourceExists = false
        · have hvr : validationReturn env = true := by
            simp [validationReturn, depsOkFalse, hdr, depsOk, stubStageB,
              outputStageB, passesValidation, hse, hs.1, hs.2]
          simp [hs.1, hs.2, hse, hvr, out0, List.countP_cons, isDone]
        · simp only [Bool.not_eq_false] at hse
          rcases hscan : scanTarget (env.listing.map DirEntry.name) with
            _ | ⟨f, ispy⟩
          · have hvr : validationReturn env = true := by
              simp [validationReturn, depsOkFalse, hdr, depsOk, stubStageB,
                outputStageB, passesValidation, scanFound, hscan, hse,
                hs.1, hs.2]
            simp [hs.1, hs.2, hse, hscan, hvr, out0, List.countP_append,
              List.countP_cons, isDone]
          · have hvr : validationReturn env = !(outputReady env) := by
              simp [validationReturn, depsOkFalse, hdr, depsOk, stubStageB,
                outputStageB, passesValidation, scanFound, hscan, hse,
                hs.1, hs.2]
            simp only [hs.1, hs.2, hse, hscan, hvr]
            simp [cp_stageOutput, List.countP_append, List.countP_cons,
              isDone]
            cases houtr : outputReady env <;> simp [houtr]
    · simp [validationReturn, depsOkFalse, hdr, depsOk, out0]

theorem cp_app (env : Env) :
    (convert_app env).events.countP isDone =
      (convertBody env).events.countP isDone + 1 := by
  unfold convert_app
  cases hx : (convertBody env).exit <;>
    simp [hx, List.countP_append, List.countP_cons, isDone]

theorem dc_app (env : Env) :
    doneCount (convert_app env).events =
      (if validationReturn env then 2 else 1) := by
  simp only [doneCount]
  rw [cp_app, cp_body]
  cases hvr : validationReturn env <;> simp [hvr]

theorem app_last_done (env : Env) :
    ∃ l, (convert_app env).events = l ++ [Event.done] :=
  ⟨_, rfl⟩

/-- C1: the claim states that exactly one done event is enqueued per
conversion run, always.  The finally clause does enqueue one done in every
run, as the last event; but on the four validation early returns (empty or
missing paths, no target found, output-directory creation failure) the code
first enqueues an explicit done and then returns, so those runs enqueue two
done events in total.  This theorem proves the amended statement: the trace
always ends in a done event, and the number of done events is two on the
explicit-done early returns and one on every other run (success,
provisioning restart, or an exception from any pipeline stage). -/
theorem C1_done_per_run (env : Env) :
    (∃ l, (convert_app env).events = l ++ [Event.done]) ∧
    doneCount (convert_app env).events =
      (if validationReturn env then 2 else 1) :=
  ⟨app_last_done env, dc_app env⟩

/-- C1 counterexample: a run whose source path is whitespace only takes
the validation early return and enqueues two done events, not one. -/
theorem C1_counterexample :
    doneCount (convert_app envEmptyPath).events = 2 ∧
    ¬ doneCount (convert_app envEmptyPath).events = 1 := by decide

theorem head_filter_eq_find (p : String → Bool) (l : List String) :
    (l.filter p).head? = l.find? p := by
  induction l with
  | nil => rfl
  | cons a t ih =>
    by_cases h : p a = true
    · simp [List.filter_cons, h, List.find?_cons_of_pos]
    · rw [List.filter_cons, if_neg (by simp [h]),
        List.find?_cons_of_neg t (by simp [h])]
      exact ih

theorem convert_app_fields (env : Env) :
    (convert_app env).outputStageReached = (convertBody env).outputStageReached ∧
    (convert_app env).stubWritten = (convertBody env).stubWritten ∧
    (convert_app env).args = (convertBody env).args ∧
    (convert_app env).stubRemoved = (convertBody env).stubRemoved ∧
    (convert_app env).scanned = (convertBody env).scanned ∧
    (convert_app env).stubPath = (convertBody env).stubPath ∧
    (convert_app env).stub = (convertBody env).stub ∧
    (convert_app env).warnings = (convertBody env).warnings ∧
    (convert_app env).exit = (convertBody env).exit :=
  ⟨rfl, rfl, rfl, rfl, rfl, rfl, rfl, rfl, rfl⟩

theorem body_scanNone (env : Env)
    (h : scanTarget (env.listing.map DirEntry.name) = none) :
    (convertBody env).outputStageReached = false ∧
    (convertBody env).stubWritten = false ∧
    (convertBody env).args = none := by
  unfold convertBody
  rcases hdr : ensure_dependencies env.depEnv with e | ⟨b, sp, acts⟩
  · simp [out0]
  · cases b
    · by_cases hs : pyStrip env.source_raw = "" ∨ pyStrip env.output_raw = ""
      · simp [hs, out0]
      · by_cases hse : env.sourceExists = false
        · simp [hs, hse, out0]
        · simp [hs, hse, h, out0]
    · simp [out0]

theorem body_scanNone_error (env : Env)
    (hdeps : depsOk (ensure_dependencies env.depEnv) = some false)
    (hs : pyStrip env.source_raw ≠ "") (ho : pyStrip env.output_raw ≠ "")
    (hse : env.sourceExists = true)
    (h : scanTarget (env.listing.map DirEntry.name) = none) :
    Event.error "No EXE or Python files found in source folder" ∈
      (convert_app env).events := by
  unfold convert_app convertBody
  rcases hdr : ensure_dependencies env.depEnv with e | ⟨b, sp, acts⟩
  · rw [hdr] at hdeps; simp [depsOk] at hdeps
  · rw [hdr] at hdeps; simp [depsOk] at hdeps
    subst hdeps
    simp [hs, ho, hse, h, out0]

/-- C2: the scanner filters the raw directory listing by name suffix; when
any .exe entry exists the first such entry in listing order is selected
with kind executable, else when any .py entry exists the first such entry
is selected with kind script, and when neither exists the scan yields
nothing, a not-found error event is queued, and no later pipeline stage
(output preparation, stub write, bundler invocation) executes. -/
theorem C2_scanner (names : List String) (f g : String) (env : Env) :
    (names.find? (fun s => endsWithStr s ".exe") = some f →
      scanTarget names = some (f, false)) ∧
    (names.find? (fun s => endsWithStr s ".exe") = none →
      names.find? (fun s => endsWithStr s ".py") = some g →
      scanTarget names = some (g, true)) ∧
    (names.find? (fun s => endsWithStr s ".exe") = none →
      names.find? (fun s => endsWithStr s ".py") = none →
      scanTarget names = none) ∧
    (scanTarget (env.listing.map DirEntry.name) = none →
      (convert_app env).outputStageReached = false ∧
      (convert_app env).stubWritten = false ∧
      (convert_app env).args = none) ∧
    (depsOk (ensure_dependencies env.depEnv) = some false →
      pyStrip env.source_raw ≠ "" → pyStrip env.output_raw ≠ "" →
      env.sourceExists = true →
      scanTarget (env.listing.map DirEntry.name) = none →
      Event.error "No EXE or Python files found in source folder" ∈
        (convert_app env).events) := by
  refine ⟨?_, ?_, ?_, ?_, ?_⟩
  · intro hf
    rw [← head_filter_eq_find] at hf
    unfold scanTarget
    rcases hl : exeFiles names with _ | ⟨a, t⟩
    · rw [show exeFiles names = names.filter (fun s => endsWithStr s ".exe")
        from rfl] at hl
      rw [hl] at hf
      simp at hf
    · rw [show exeFiles names = names.filter (fun s => endsWithStr s ".exe")
        from rfl] at hl
      rw [hl] at hf
      simp at hf
      rw [hf]
  · intro he hg
    rw [← head_filter_eq_find] at he hg
    unfold scanTarget
    have hle : exeFiles names = [] := by
      rcases hl : exeFiles names with _ | ⟨a, t⟩
      · rfl
      · rw [show exeFiles names = names.filter (fun s => endsWithStr s ".exe")
          from rfl] at hl
        rw [hl] at he
        simp at he
    rw [hle]
    rcases hl : pyFiles names with _ | ⟨a, t⟩
    · rw [show pyFiles names = names.filter (fun s => endsWithStr s ".py")
        from rfl] at hl
      rw [hl] at hg
      simp at hg
    · rw [show pyFiles names = names.filter (fun s => endsWithStr s ".py")
        from rfl] at hl
      rw [hl] at hg
      simp at hg
      rw [hg]
  · intro he hg
    rw [← head_filter_eq_find] at he hg
    unfold scanTarget
    have hle : exeFiles names = [] := by
      rcases hl : exeFiles names with _ | ⟨a, t⟩
      · rfl
      · rw [show exeFiles names = names.filter (fun s => endsWithStr s ".exe")
          from rfl] at hl
        rw [hl] at he
        simp at he
    have hlp : pyFiles names = [] := by
      rcases hl : pyFiles names with _ | ⟨a, t⟩
      · rfl
      · rw [show pyFiles names = names.filter (fun s => endsWithStr s ".py")
          from rfl] at hl
        rw [hl] at hg
        simp at hg
    rw [hle, hlp]
  · intro h
    have hb := body_scanNone env h
    have hf := convert_app_fields env
    exact ⟨hf.1.trans hb.1, hf.2.1.trans hb.2.1, hf.2.2.1.trans hb.2.2⟩
  · intro hdeps hs ho hse h
    exact body_scanNone_error env hdeps hs ho hse h

/-- C2 witness: concrete runs exercising each branch of the scanner
policy and the not-found stop. -/
theorem C2_scanner_witness :
    scanTarget ["a.txt", "m.exe", "b.py", "n.exe"] = some ("m.exe", false) ∧
    scanTarget ["a.txt", "b.py", "c.py"] = some ("b.py", true) ∧
    scanTarget ["a.txt"] = none ∧
    ((convert_app envNoTarget).outputStageReached = false ∧
      (convert_app envNoTarget).stubWritten = false ∧
      (convert_app envNoTarget).args = none) ∧
    Event.error "No EXE or Python files found in source folder" ∈
      (convert_app envNoTarget).events :=
  ⟨(C2_scanner ["a.txt", "m.exe", "b.py", "n.exe"] "m.exe" "x" envNoTarget).1
      (by decide),
   (C2_scanner ["a.txt", "b.py", "c.py"] "x" "b.py" envNoTarget).2.1
      (by decide) (by decide),
   (C2_scanner ["a.txt"] "x" "x" envNoTarget).2.2.1 (by decide) (by decide),
   (C2_scanner [] "x" "x" envNoTarget).2.2.2.1 (by decide),
   (C2_scanner [] "x" "x" envNoTarget).2.2.2.2 (by decide) (by decide)
      (by decide) (by decide) (by decide)⟩

theorem cleanupResult_fst (env : Env) :
    (cleanupResult env).1 = env.removeStubErr.isNone := by
  unfold cleanupResult
  cases hrs : env.removeStubErr
  · simp
    split
    · simp
    · split <;> simp
  · simp

theorem sw_sr_stageFinish (env : Env) (op : String) (st : BodyOut)
    (evs : List Event) :
    (stageFinish env op st evs).stubWritten = st.stubWritten ∧
    (stageFinish env op st evs).stubRemoved = env.removeStubErr.isNone := by
  have hc := cleanupResult_fst env
  unfold stageFinish
  rcases hcr : cleanupResult env with ⟨removed, w⟩
  rw [hcr] at hc
  simp at hc
  cases w <;> simp [hc]

theorem sw_sr_stageBundle (env : Env) (sp op ts : String) (st : BodyOut)
    (evs : List Event) :
    (stageBundle env sp op ts st evs).stubWritten = st.stubWritten ∧
    (stageBundle env sp op ts st evs).stubRemoved =
      (if env.importErr.isNone && env.pyinstallerErr.isNone
        then env.removeStubErr.isNone else st.stubRemoved) := by
  unfold stageBundle
  cases hie : env.importErr
  · cases hpe : env.pyinstallerErr
    · simp [sw_sr_stageFinish, hie, hpe]
    · simp [hie, hpe]
  · simp [hie]

theorem sw_sr_stageStub (env : Env) (sp op mf : String) (ispy : Bool)
    (evs : List Event) (st : BodyOut) :
    (stageStub env sp op mf ispy evs st).stubWritten =
      (if env.stubWriteErr.isNone then true else st.stubWritten) ∧
    (stageStub env sp op mf ispy evs st).stubRemoved =
      (if env.stubWriteErr.isNone && env.importErr.isNone &&
          env.pyinstallerErr.isNone
        then env.removeStubErr.isNone else st.stubRemoved) := by
  unfold stageStub
  cases hwe : env.stubWriteErr <;>
    cases hie : env.importErr <;> cases hpe : env.pyinstallerErr <;>
    simp [sw_sr_stageBundle, hwe, hie, hpe]

theorem sw_sr_stageOutput (env : Env) (sp op mf : String) (ispy : Bool)
    (evs : List Event) (st : BodyOut) (hw : st.stubWritten = false)
    (hr : st.stubRemoved = false) :
    (stageOutput env sp op mf ispy evs st).stubWritten =
      (outputReady env && env.stubWriteErr.isNone) ∧
    (stageOutput env sp op mf ispy evs st).stubRemoved =
      (outputReady env && env.stubWriteErr.isNone && env.importErr.isNone &&
        env.pyinstallerErr.isNone && env.removeStubErr.isNone) := by
  unfold stageOutput
  cases hex : env.outputExists <;> cases hmk : env.mkdirErr <;>
    cases hwe : env.stubWriteErr <;> cases hie : env.importErr <;>
    cases hpe : env.pyinstallerErr <;>
    simp [sw_sr_stageStub, hw, hr, outputReady, hex, hmk, hwe, hie, hpe]

theorem body_stub_flags (env : Env) :
    (convertBody env).stubWritten = stubOkB env ∧
    (convertBody env).stubRemoved =
      (bundleOkB env && env.removeStubErr.isNone) := by
  unfold convertBody
  rcases hdr : ensure_dependencies env.depEnv with e | ⟨b, sp, acts⟩
  · simp [out0, stubOkB, stubStageB, outputStageB, passesValidation,
      depsOkFalse, hdr, depsOk, bundleOkB, bundleStageB]
  · cases b
    · by_cases hs : pyStrip env.source_raw = "" ∨ pyStrip env.output_raw = ""
      · have hpv : passesValidation env = false := by
          simp [passesValidation]
          rcases hs with hs | hs <;> simp [hs]
        simp [hs, out0, stubOkB, stubStageB, outputStageB, hpv, bundleOkB,
          bundleStageB]
      · simp only [not_or] at hs
        by_cases hse : env.sourceExists = false
        · have hpv : passesValidation env = false := by
            simp [passesValidation, hse]
          simp [hs.1, hs.2, hse, out0, stubOkB, stubStageB, outputStageB,
            hpv, bundleOkB, bundleStageB]
        · simp only [Bool.not_eq_false] at hse
          have hpv : passesValidation env = true := by
            simp [passesValidation, depsOkFalse, hdr, depsOk, hse, hs.1,
              hs.2]
          rcases hscan : scanTarget (env.listing.map DirEntry.name) with
            _ | ⟨f, ispy⟩
          · simp [hs.1, hs.2, hse, hscan, out0, stubOkB, stubStageB,
              outputStageB, scanFound, bundleOkB, bundleStageB]
          · simp [hs.1, hs.2, hse, hscan, sw_sr_stageOutput, out0,
              stubOkB, stubStageB, outputStageB, scanFound, hpv,
              bundleOkB, bundleStageB, Bool.and_assoc]
    · simp [out0, stubOkB, stubStageB, outputStageB, passesValidation,
        depsOkFalse, hdr, depsOk, bundleOkB, bundleStageB]

/-- C3 counterexample: in a run where the stub was written and then the
PyInstaller invocation raised, the cleanup block is skipped by the
propagating exception and the stub is not deleted. -/
theorem C3_counterexample :
    (convert_app envPyFail).stubWritten = true ∧
    (convert_app envPyFail).stubRemoved = false := by decide

/-- C3 (amended): the claim states the stub is deleted by the end of every
conversion in which it was written, even when the bundler raises.  In the
code the deletion sits in the cleanup block after the bundler call, not in
a finally clause, so it runs only when the import and the bundler call both
succeeded, and only succeeds when the deletion call itself does.  Amended:
for every conversion in which the stub was written, the stub is deleted iff
the PyInstaller import and run completed without raising and the deletion
call itself succeeded; on a bundler exception the stub survives. -/
theorem C3_stub_removal (env : Env)
    (h : (convert_app env).stubWritten = true) :
    ((convert_app env).stubRemoved = true ↔
      env.importErr = none ∧ env.pyinstallerErr = none ∧
        env.removeStubErr = none) := by
  have hf := convert_app_fields env
  have hb := body_stub_flags env
  rw [hf.2.1, hb.1] at h
  rw [hf.2.2.2.1, hb.2]
  unfold bundleOkB bundleStageB
  rw [h]
  simp [Option.isNone_iff_eq_none, and_assoc]

/-- C3 witness: a fully successful run writes the stub and deletes it. -/
theorem C3_stub_removal_witness :
    (convert_app envSuccess).stubRemoved = true :=
  (C3_stub_removal envSuccess (by decide)).mpr ⟨rfl, rfl, rfl⟩

theorem takeWhile_append_cons {α : Type} (p : α → Bool) (l : List α) (x : α)
    (r : List α) (hl : ∀ a ∈ l, p a = true) (hx : p x = false) :
    (l ++ x :: r).takeWhile p = l := by
  induction l with
  | nil => simp [List.takeWhile_cons, hx]
  | cons a t ih =>
    have ha := hl a (by simp)
    simp only [List.cons_append, List.takeWhile_cons, ha, if_true]
    rw [ih (fun b hb => hl b (by simp [hb]))]

theorem osBasename_osJoin (s f : String) (hf : Char.ofNat 47 ∉ f.data) :
    osBasename (osJoin s f) = f := by
  unfold osBasename osJoin
  have hd : (s ++ "/" ++ f).data = s.data ++ Char.ofNat 47 :: f.data := by
    simp [String.data_append]
  rw [hd, List.reverse_append, List.reverse_cons, List.append_assoc,
    List.singleton_append]
  rw [takeWhile_append_cons _ _ _ _
    (fun a ha => by
      simp only [List.mem_reverse] at ha
      simp only [bne_iff_ne, ne_eq]
      intro hc
      exact hf (hc ▸ ha))
    (by simp)]
  rw [List.reverse_reverse]

theorem stub_stageFinish (env : Env) (op : String) (st : BodyOut)
    (evs : List Event) :
    (stageFinish env op st evs).stub = st.stub ∧
    (stageFinish env op st evs).stubPath = st.stubPath ∧
    (stageFinish env op st evs).args = st.args := by
  unfold stageFinish
  rcases hcr : cleanupResult env with ⟨removed, w⟩
  cases w <;> simp

theorem stub_stageBundle (env : Env) (sp op ts : String) (st : BodyOut)
    (evs : List Event) :
    (stageBundle env sp op ts st evs).stub = st.stub ∧
    (stageBundle env sp op ts st evs).stubPath = st.stubPath ∧
    (stageBundle env sp op ts st evs).args =
      (if env.importErr.isNone
        then some (pyinstaller_args ts op sp env.window_var)
        else st.args) := by
  unfold stageBundle
  cases hie : env.importErr <;> cases hpe : env.pyinstallerErr <;>
    simp [stub_stageFinish, hie, hpe]

theorem stub_stageStub (env : Env) (sp op mf : String) (ispy : Bool)
    (evs : List Event) (st : BodyOut) :
    (stageStub env sp op mf ispy evs st).stub =
      (if env.stubWriteErr.isNone then some (mkStub ispy mf) else st.stub) ∧
    (stageStub env sp op mf ispy evs st).stubPath =
      some (osJoin sp "launcher.py") ∧
    (stageStub env sp op mf ispy evs st).args =
      (if env.stubWriteErr.isNone && env.importErr.isNone
        then some (pyinstaller_args (osJoin sp "launcher.py") op sp
          env.window_var)
        else st.args) := by
  unfold stageStub
  cases hwe : env.stubWriteErr <;> cases hie : env.importErr <;>
    simp [stub_stageBundle, hwe, hie]

theorem stub_stageOutput (env : Env) (sp op mf : String) (ispy : Bool)
    (evs : List Event) (st : BodyOut) :
    (stageOutput env sp op mf ispy evs st).stub =
      (if outputReady env && env.stubWriteErr.isNone
        then some (mkStub ispy mf) else st.stub) ∧
    (stageOutput env sp op mf ispy evs st).stubPath =
      (if outputReady env then some (osJoin sp "launcher.py")
        else st.stubPath) ∧
    (stageOutput env sp op mf ispy evs st).args =
      (if outputReady env && env.stubWriteErr.isNone && env.importErr.isNone
        then some (pyinstaller_args (osJoin sp "launcher.py") op sp
          env.window_var)
        else st.args) := by
  unfold stageOutput
  cases hex : env.outputExists <;> cases hmk : env.mkdirErr <;>
    cases hwe : env.stubWriteErr <;> cases hie : env.importErr <;>
    simp [stub_stageStub, outputReady, hex, hmk, hwe, hie, Bool.and_assoc]

theorem body_artifacts (env : Env) :
    (convertBody env).stubPath =
      (if stubStageB env then some (tempScriptOf env) else none) ∧
    (convertBody env).args =
      (if bundleStageB env then
        some (pyinstaller_args (tempScriptOf env) (pyStrip env.output_raw)
          (pyStrip env.source_raw) env.window_var)
      else none) := by
  unfold convertBody
  rcases hdr : ensure_dependencies env.depEnv with e | ⟨b, sp, acts⟩
  · simp [out0, stubStageB, outputStageB, passesValidation, depsOkFalse,
      hdr, depsOk, bundleStageB, stubOkB]
  · cases b
    · by_cases hs : pyStrip env.source_raw = "" ∨ pyStrip env.output_raw = ""
      · have hpv : passesValidation env = false := by
          simp [passesValidation]
          rcases hs with hs | hs <;> simp [hs]
        simp [hs, out0, stubStageB, outputStageB, hpv, bundleStageB,
          stubOkB]
      · simp only [not_or] at hs
        by_cases hse : env.sourceExists = false
        · have hpv : passesValidation env = false := by
            simp [passesValidation, hse]
          simp [hs.1, hs.2, hse, out0, stubStageB, outputStageB, hpv,
            bundleStageB, stubOkB]
        · simp only [Bool.not_eq_false] at hse
          have hpv : passesValidation env = true := by
            simp [passesValidation, depsOkFalse, hdr, depsOk, hse, hs.1,
              hs.2]
          rcases hscan : scanTarget (env.listing.map DirEntry.name) with
            _ | ⟨f, ispy⟩
          · simp [hs.1, hs.2, hse, hscan, out0, stubStageB, outputStageB,
              scanFound, bundleStageB, stubOkB]
          · simp [hs.1, hs.2, hse, hscan, stub_stageOutput, out0,
              stubStageB, outputStageB, scanFound, hpv, bundleStageB,
              stubOkB, tempScriptOf, Bool.and_assoc]
    · simp [out0, stubStageB, outputStageB, passesValidation, depsOkFalse,
        hdr, depsOk, bundleStageB, stubOkB]

theorem body_stub_artifact (env : Env) (st : LauncherStub)
    (h : (convertBody env).stub = some st) :
    ∃ g isp, scanTarget (env.listing.map DirEntry.name) = some (g, isp) ∧
      st = mkStub isp (osJoin (pyStrip env.source_raw) g) := by
  unfold convertBody at h
  rcases hdr : ensure_dependencies env.depEnv with e | ⟨b, sp, acts⟩ <;>
    rw [hdr] at h
  · simp [out0] at h
  · cases b
    · by_cases hs : pyStrip env.source_raw = "" ∨ pyStrip env.output_raw = ""
      · simp [hs, out0] at h
      · simp only [not_or] at hs
        by_cases hse : env.sourceExists = false
        · simp [hs.1, hs.2, hse, out0] at h
        · simp only [Bool.not_eq_false] at hse
          rcases hscan : scanTarget (env.listing.map DirEntry.name) with
            _ | ⟨f, ispy⟩ <;> rw [hscan] at h
          · simp [hs.1, hs.2, hse, out0] at h
          · simp only [hs.1, hs.2, hse] at h
            simp at h
            rw [(stub_stageOutput env (pyStrip env.source_raw)
              (pyStrip env.output_raw)
              (osJoin (pyStrip env.source_raw) f) ispy _ _).1] at h
            by_cases hc : (outputReady env && env.stubWriteErr.isNone) = true
            · rw [if_pos hc] at h
              exact ⟨f, ispy, rfl, (Option.some.inj h).symm⟩
            · rw [if_neg hc] at h
              simp [out0] at h
    · simp [out0] at h

/-- C4: the stub written for a discovered target stores exactly the
basename of the target; at run time the stub resolves its base directory
to the frozen-bundle extraction directory when packaged and to its own
directory otherwise, and joins the stored basename to it; a script-kind
stub prepends the base directory to the module search path and runs the
target in-process via the module loader, an executable-kind stub spawns
the target as a child process, and a non-zero child exit is failure. -/
theorem C4_stub_behavior (s f meipass own_dir : String) (ispy frozen : Bool)
    (code : Int) (env : Env) (st : LauncherStub)
    (hf : Char.ofNat 47 ∉ f.data) :
    (mkStub ispy (osJoin s f)).target_basename = f ∧
    stubBaseDir true meipass own_dir = meipass ∧
    stubBaseDir false meipass own_dir = own_dir ∧
    stubRun (mkStub true (osJoin s f)) frozen meipass own_dir =
      StubAction.runScript
        (osJoin (stubBaseDir frozen meipass own_dir) f)
        (stubBaseDir frozen meipass own_dir) ∧
    stubRun (mkStub false (osJoin s f)) frozen meipass own_dir =
      StubAction.spawnChild
        (osJoin (stubBaseDir frozen meipass own_dir) f) ∧
    (spawnCheck code = Except.ok () ↔ code = 0) ∧
    ((convert_app env).stub = some st →
      ∃ g isp, scanTarget (env.listing.map DirEntry.name) = some (g, isp) ∧
        st = mkStub isp (osJoin (pyStrip env.source_raw) g)) := by
  have hb := osBasename_osJoin s f hf
  refine ⟨hb, rfl, rfl, ?_, ?_, ?_, ?_⟩
  · simp [stubRun, mkStub, hb]
  · simp [stubRun, mkStub, hb]
  · unfold spawnCheck
    split <;> simp_all
  · intro hst
    exact body_stub_artifact env st
      (((convert_app_fields env).2.2.2.2.2.2.1).symm.trans hst)

/-- C4 witness: concrete stub instances for both kinds. -/
theorem C4_stub_behavior_witness :
    (mkStub true (osJoin "src" "app.py")).target_basename = "app.py" ∧
    stubRun (mkStub true (osJoin "src" "app.py")) true "meip" "own" =
      StubAction.runScript (osJoin (stubBaseDir true "meip" "own") "app.py")
        (stubBaseDir true "meip" "own") ∧
    stubRun (mkStub false (osJoin "src" "app.py")) true "meip" "own" =
      StubAction.spawnChild
        (osJoin (stubBaseDir true "meip" "own") "app.py") ∧
    (spawnCheck 3 = Except.ok () ↔ (3 : Int) = 0) := by
  have h := C4_stub_behavior "src" "app.py" "meip" "own" true true 3
    envSuccess (mkStub true (osJoin "src" "app.py")) (by decide)
  exact ⟨h.1, h.2.2.2.1, h.2.2.2.2.1, h.2.2.2.2.2.1⟩

theorem ne_windowed_of_mem_slash (x : String)
    (h : Char.ofNat 47 ∈ x.data) : x ≠ "--windowed" := by
  intro he
  rw [he] at h
  exact absurd h (by decide)

theorem slash_mem_osJoin (a b : String) :
    Char.ofNat 47 ∈ (osJoin a b).data := by
  have hd : (osJoin a b).data = a.data ++ Char.ofNat 47 :: b.data := by
    simp [osJoin, String.data_append]
  rw [hd]
  simp

theorem slash_mem_star (a : String) :
    Char.ofNat 47 ∈ (a ++ "/*;.").data := by
  rw [String.data_append]
  refine List.mem_append.mpr (Or.inr ?_)
  decide

/-- C5: for every conversion reaching the bundler stage the argument list
handed to PyInstaller is exactly the one built at lines 404-414: the stub
path, single-output-file mode, distribution directory = output directory,
work directory = output directory/build, spec directory = output
directory, and a data spec embedding source directory/* at the bundle
root; the windowed flag is an element iff window mode is on. -/
theorem C5_bundler_args (env : Env) (l : List String)
    (h : (convert_app env).args = some l) :
    l = pyinstaller_args (tempScriptOf env) (pyStrip env.output_raw)
      (pyStrip env.source_raw) env.window_var ∧
    tempScriptOf env ∈ l ∧ "--onefile" ∈ l ∧
    (∃ l1 l2, l = l1 ++ ["--distpath", pyStrip env.output_raw] ++ l2) ∧
    (∃ l1 l2, l = l1 ++ ["--workpath",
      osJoin (pyStrip env.output_raw) "build"] ++ l2) ∧
    (∃ l1 l2, l = l1 ++ ["--specpath", pyStrip env.output_raw] ++ l2) ∧
    (∃ l1 l2, l = l1 ++ ["--add-data",
      pyStrip env.source_raw ++ "/*;."] ++ l2) ∧
    (pyStrip env.output_raw ≠ "--windowed" →
      ("--windowed" ∈ l ↔ env.window_var = true)) := by
  rw [(convert_app_fields env).2.2.1, (body_artifacts env).2] at h
  by_cases hbs : bundleStageB env = true
  · rw [if_pos hbs] at h
    have hl := (Option.some.inj h).symm
    subst hl
    refine ⟨rfl, ?_, ?_, ?_, ?_, ?_, ?_, ?_⟩
    · cases hw : env.window_var <;> simp [pyinstaller_args, hw]
    · cases hw : env.window_var <;> simp [pyinstaller_args, hw]
    · exact ⟨[tempScriptOf env],
        ["--workpath", osJoin (pyStrip env.output_raw) "build",
          "--specpath", pyStrip env.output_raw, "--onefile", "--add-data",
          pyStrip env.source_raw ++ "/*;."] ++
          (if env.window_var then ["--windowed"] else []),
        by cases env.window_var <;> rfl⟩
    · exact ⟨[tempScriptOf env, "--distpath", pyStrip env.output_raw],
        ["--specpath", pyStrip env.output_raw, "--onefile", "--add-data",
          pyStrip env.source_raw ++ "/*;."] ++
          (if env.window_var then ["--windowed"] else []),
        by cases env.window_var <;> rfl⟩
    · exact ⟨[tempScriptOf env, "--distpath", pyStrip env.output_raw,
          "--workpath", osJoin (pyStrip env.output_raw) "build"],
        ["--onefile", "--add-data", pyStrip env.source_raw ++ "/*;."] ++
          (if env.window_var then ["--windowed"] else []),
        by cases env.window_var <;> rfl⟩
    · exact ⟨[tempScriptOf env, "--distpath", pyStrip env.output_raw,
          "--workpath", osJoin (pyStrip env.output_raw) "build",
          "--specpath", pyStrip env.output_raw, "--onefile"],
        (if env.window_var then ["--windowed"] else []),
        by cases env.window_var <;> rfl⟩
    · intro hop
      have hts := ne_windowed_of_mem_slash (tempScriptOf env)
        (slash_mem_osJoin (pyStrip env.source_raw) "launcher.py")
      have hwp := ne_windowed_of_mem_slash
        (osJoin (pyStrip env.output_raw) "build")
        (slash_mem_osJoin (pyStrip env.output_raw) "build")
      have hsp := ne_windowed_of_mem_slash
        (pyStrip env.source_raw ++ "/*;.")
        (slash_mem_star (pyStrip env.source_raw))
      cases hw : env.window_var <;>
        simp [pyinstaller_args, hw, Ne.symm hts, Ne.symm hwp, Ne.symm hsp,
          Ne.symm hop]
  · rw [if_neg hbs] at h
    simp at h

/-- C5 witness: the windowed flag is absent from the argument list of a
run with window mode off, and present with it on. -/
theorem C5_bundler_args_witness :
    ("--windowed" ∈ pyinstaller_args (tempScriptOf envSuccess)
        (pyStrip envSuccess.output_raw) (pyStrip envSuccess.source_raw)
        envSuccess.window_var ↔ envSuccess.window_var = true) ∧
    "--onefile" ∈ pyinstaller_args (tempScriptOf envSuccess)
      (pyStrip envSuccess.output_raw) (pyStrip envSuccess.source_raw)
      envSuccess.window_var := by
  have h := C5_bundler_args envSuccess
    (pyinstaller_args (tempScriptOf envSuccess)
      (pyStrip envSuccess.output_raw) (pyStrip envSuccess.source_raw)
      envSuccess.window_var) (by decide)
  exact ⟨h.2.2.2.2.2.2.2 (by decide), h.2.2.1⟩

theorem args_addData (env : Env) (l : List String)
    (h : (convert_app env).args = some l) :
    ∃ l1 l2, l = l1 ++ ["--add-data",
      pyStrip env.source_raw ++ "/*;."] ++ l2 := by
  rw [(convert_app_fields env).2.2.1, (body_artifacts env).2] at h
  by_cases hbs : bundleStageB env = true
  · rw [if_pos hbs] at h
    have hl := (Option.some.inj h).symm
    subst hl
    exact ⟨[tempScriptOf env, "--distpath", pyStrip env.output_raw,
        "--workpath", osJoin (pyStrip env.output_raw) "build",
        "--specpath", pyStrip env.output_raw, "--onefile"],
      (if env.window_var then ["--windowed"] else []),
      by cases env.window_var <;> rfl⟩
  · rw [if_neg hbs] at h
    simp at h

/-- C9: the launcher stub is written at the fixed path
source_directory/launcher.py — inside the user-supplied source directory,
which every conversion reaching the stub-write stage therefore mutates —
and the data-embedding spec passed to the bundler is source_directory/*,
whose directory the stub path lies directly inside, so the stub itself is
part of the embedded data. -/
theorem C9_stub_in_source (env : Env) (p : String) (l : List String) :
    ((convert_app env).stubPath = some p →
      p = osJoin (pyStrip env.source_raw) "launcher.py" ∧
      inDirStar (pyStrip env.source_raw) p) ∧
    ((convert_app env).args = some l →
      (∃ l1 l2, l = l1 ++ ["--add-data",
        pyStrip env.source_raw ++ "/*;."] ++ l2)) := by
  constructor
  · intro h
    rw [(convert_app_fields env).2.2.2.2.2.1, (body_artifacts env).1] at h
    by_cases hbs : stubStageB env = true
    · rw [if_pos hbs] at h
      have hp := (Option.some.inj h).symm
      subst hp
      exact ⟨rfl, ⟨"launcher.py", by decide, rfl⟩⟩
    · rw [if_neg hbs] at h
      simp at h
  · intro h
    exact args_addData env l h

/-- C9 witness: a successful run has its stub inside the source directory
and the add-data pair in the argument list. -/
theorem C9_stub_in_source_witness :
    (osJoin (pyStrip envSuccess.source_raw) "launcher.py" =
        osJoin (pyStrip envSuccess.source_raw) "launcher.py" ∧
      inDirStar (pyStrip envSuccess.source_raw)
        (osJoin (pyStrip envSuccess.source_raw) "launcher.py")) ∧
    (∃ l1 l2, pyinstaller_args (tempScriptOf envSuccess)
        (pyStrip envSuccess.output_raw) (pyStrip envSuccess.source_raw)
        envSuccess.window_var =
      l1 ++ ["--add-data", pyStrip envSuccess.source_raw ++ "/*;."] ++ l2) := by
  have h := C9_stub_in_source envSuccess
    (osJoin (pyStrip envSuccess.source_raw) "launcher.py")
    (pyinstaller_args (tempScriptOf envSuccess)
      (pyStrip envSuccess.output_raw) (pyStrip envSuccess.source_raw)
      envSuccess.window_var)
  exact ⟨h.1 (by decide), h.2 (by decide)⟩

/-- C6: the provisioner returns true iff at least one declared dependency
was absent, in which case it downloaded the archive to a temporary file,
extracted it to the install path and deleted the temporary file, in that
order; when it returns true the conversion exits before the scanning
stage, its whole queue trace being the single done event; and a download
or extraction error propagates and surfaces as a conversion failure. -/
theorem C6_provisioner (denv : DepEnv) (env : Env) (b : Bool)
    (sp : List String) (acts : List DepAction) (e : String) :
    (ensure_dependencies denv = Except.ok (b, sp, acts) →
      (b = true ↔ ∃ d ∈ DEPENDENCIES,
        denv.pathExists (depPath denv d.1 d.2) = false)) ∧
    (ensure_dependencies denv = Except.ok (true, sp, acts) →
      ∃ rest, acts = [DepAction.download pyinstallerInfo.url
          (osJoin denv.tmpdir "pyinstaller.tar.gz"),
        DepAction.extractTo (osJoin denv.tmpdir "pyinstaller.tar.gz")
          (depPath denv "pyinstaller" pyinstallerInfo),
        DepAction.removeTemp (osJoin denv.tmpdir "pyinstaller.tar.gz")] ++
        rest) ∧
    (depsOk (ensure_dependencies env.depEnv) = some true →
      (convert_app env).events = [Event.done] ∧
      (convert_app env).scanned = false) ∧
    (ensure_dependencies env.depEnv = Except.error e →
      (convert_app env).events =
        [Event.log ("ERROR: An error occurred: " ++ e),
          Event.error ("An error occurred: " ++ e), Event.done] ∧
      (convert_app env).scanned = false) := by
  refine ⟨?_, ?_, ?_, ?_⟩
  · intro h
    by_cases hex : denv.pathExists
        (depPath denv "pyinstaller" pyinstallerInfo) = true
    · cases b
      · simp [DEPENDENCIES, hex]
      · simp [ensure_dependencies, DEPENDENCIES, ensureDepsGo, hex] at h
    · simp only [Bool.not_eq_true] at hex
      rcases hdl : denv.downloadErr pyinstallerInfo.url with _ | er
      · rcases hext : denv.extractErr
            (depPath denv "pyinstaller" pyinstallerInfo) with _ | er
        · rcases hrt : denv.removeTempErr
              (osJoin denv.tmpdir "pyinstaller.tar.gz") with _ | er
          · cases b
            · simp [ensure_dependencies, DEPENDENCIES, ensureDepsGo, hex,
                hdl, hext, hrt] at h
            · simp [DEPENDENCIES, hex]
          · simp [ensure_dependencies, DEPENDENCIES, ensureDepsGo, hex,
              hdl, hext, hrt] at h
        · simp [ensure_dependencies, DEPENDENCIES, ensureDepsGo, hex,
            hdl, hext] at h
      · simp [ensure_dependencies, DEPENDENCIES, ensureDepsGo, hex,
          hdl] at h
  · intro h
    by_cases hex : denv.pathExists
        (depPath denv "pyinstaller" pyinstallerInfo) = true
    · simp [ensure_dependencies, DEPENDENCIES, ensureDepsGo, hex] at h
    · simp only [Bool.not_eq_true] at hex
      rcases hdl : denv.downloadErr pyinstallerInfo.url with _ | er
      · rcases hext : denv.extractErr
            (depPath denv "pyinstaller" pyinstallerInfo) with _ | er
        · rcases hrt : denv.removeTempErr
              (osJoin denv.tmpdir "pyinstaller.tar.gz") with _ | er
          · by_cases hmem : depPath denv "pyinstaller" pyinstallerInfo ∈
                denv.sys_path
            · have hcf : ensure_dependencies denv = Except.ok (true,
                  denv.sys_path,
                  [DepAction.download pyinstallerInfo.url
                      (osJoin denv.tmpdir "pyinstaller.tar.gz"),
                    DepAction.extractTo
                      (osJoin denv.tmpdir "pyinstaller.tar.gz")
                      (depPath denv "pyinstaller" pyinstallerInfo),
                    DepAction.removeTemp
                      (osJoin denv.tmpdir "pyinstaller.tar.gz")]) := by
                simp [ensure_dependencies, DEPENDENCIES, ensureDepsGo,
                  hex, hdl, hext, hrt, hmem]
              rw [hcf] at h
              have hacts : acts =
                  [DepAction.download pyinstallerInfo.url
                      (osJoin denv.tmpdir "pyinstaller.tar.gz"),
                    DepAction.extractTo
                      (osJoin denv.tmpdir "pyinstaller.tar.gz")
                      (depPath denv "pyinstaller" pyinstallerInfo),
                    DepAction.removeTemp
                      (osJoin denv.tmpdir "pyinstaller.tar.gz")] :=
                (congrArg (fun q => q.2.2) (Except.ok.inj h)).symm
              exact ⟨[], by rw [hacts]; simp⟩
            · have hcf : ensure_dependencies denv = Except.ok (true,
                  depPath denv "pyinstaller" pyinstallerInfo ::
                    denv.sys_path,
                  [DepAction.download pyinstallerInfo.url
                      (osJoin denv.tmpdir "pyinstaller.tar.gz"),
                    DepAction.extractTo
                      (osJoin denv.tmpdir "pyinstaller.tar.gz")
                      (depPath denv "pyinstaller" pyinstallerInfo),
                    DepAction.removeTemp
                      (osJoin denv.tmpdir "pyinstaller.tar.gz"),
                    DepAction.addSysPath
                      (depPath denv "pyinstaller" pyinstallerInfo)]) := by
                simp [ensure_dependencies, DEPENDENCIES, ensureDepsGo,
                  hex, hdl, hext, hrt, hmem]
              rw [hcf] at h
              have hacts : acts =
                  [DepAction.download pyinstallerInfo.url
                      (osJoin denv.tmpdir "pyinstaller.tar.gz"),
                    DepAction.extractTo
                      (osJoin denv.tmpdir "pyinstaller.tar.gz")
                      (depPath denv "pyinstaller" pyinstallerInfo),
                    DepAction.removeTemp
                      (osJoin denv.tmpdir "pyinstaller.tar.gz"),
                    DepAction.addSysPath
                      (depPath denv "pyinstaller" pyinstallerInfo)] :=
                (congrArg (fun q => q.2.2) (Except.ok.inj h)).symm
              exact ⟨[DepAction.addSysPath
                (depPath denv "pyinstaller" pyinstallerInfo)],
                by rw [hacts]; simp⟩
          · simp [ensure_dependencies, DEPENDENCIES, ensureDepsGo, hex,
              hdl, hext, hrt] at h
        · simp [ensure_dependencies, DEPENDENCIES, ensureDepsGo, hex,
            hdl, hext] at h
      · simp [ensure_dependencies, DEPENDENCIES, ensureDepsGo, hex,
          hdl] at h
  · intro h3
    unfold convert_app convertBody
    rcases hdr : ensure_dependencies env.depEnv with e2 | ⟨b2, sp2, acts2⟩
    · rw [hdr] at h3
      simp [depsOk] at h3
    · rw [hdr] at h3
      simp only [depsOk, Option.some.injEq] at h3
      subst h3
      simp [out0]
  · intro h4
    unfold convert_app convertBody
    rw [h4]
    simp [out0]

/-- C6 witness: a run with the dependency absent installs it and restarts;
a failing download surfaces as a conversion failure. -/
theorem C6_provisioner_witness :
    (true = true ↔ ∃ d ∈ DEPENDENCIES,
      denvAbsent.pathExists (depPath denvAbsent d.1 d.2) = false) ∧
    (∃ rest,
      [DepAction.download pyinstallerInfo.url
          (osJoin denvAbsent.tmpdir "pyinstaller.tar.gz"),
        DepAction.extractTo (osJoin denvAbsent.tmpdir "pyinstaller.tar.gz")
          (depPath denvAbsent "pyinstaller" pyinstallerInfo),
        DepAction.removeTemp (osJoin denvAbsent.tmpdir "pyinstaller.tar.gz"),
        DepAction.addSysPath
          (depPath denvAbsent "pyinstaller" pyinstallerInfo)] =
      [DepAction.download pyinstallerInfo.url
          (osJoin denvAbsent.tmpdir "pyinstaller.tar.gz"),
        DepAction.extractTo (osJoin denvAbsent.tmpdir "pyinstaller.tar.gz")
          (depPath denvAbsent "pyinstaller" pyinstallerInfo),
        DepAction.removeTemp
          (osJoin denvAbsent.tmpdir "pyinstaller.tar.gz")] ++ rest) ∧
    ((convert_app envRestart).events = [Event.done] ∧
      (convert_app envRestart).scanned = false) ∧
    ((convert_app envDepFail).events =
        [Event.log ("ERROR: An error occurred: " ++ "download failed"),
          Event.error ("An error occurred: " ++ "download failed"),
          Event.done] ∧
      (convert_app envDepFail).scanned = false) := by
  refine ⟨?_, ?_, ?_, ?_⟩
  · exact (C6_provisioner denvAbsent envRestart true
      [depPath denvAbsent "pyinstaller" pyinstallerInfo]
      [DepAction.download pyinstallerInfo.url
          (osJoin denvAbsent.tmpdir "pyinstaller.tar.gz"),
        DepAction.extractTo (osJoin denvAbsent.tmpdir "pyinstaller.tar.gz")
          (depPath denvAbsent "pyinstaller" pyinstallerInfo),
        DepAction.removeTemp (osJoin denvAbsent.tmpdir "pyinstaller.tar.gz"),
        DepAction.addSysPath
          (depPath denvAbsent "pyinstaller" pyinstallerInfo)] "x").1 rfl
  · exact (C6_provisioner denvAbsent envRestart true
      [depPath denvAbsent "pyinstaller" pyinstallerInfo]
      [DepAction.download pyinstallerInfo.url
          (osJoin denvAbsent.tmpdir "pyinstaller.tar.gz"),
        DepAction.extractTo (osJoin denvAbsent.tmpdir "pyinstaller.tar.gz")
          (depPath denvAbsent "pyinstaller" pyinstallerInfo),
        DepAction.removeTemp (osJoin denvAbsent.tmpdir "pyinstaller.tar.gz"),
        DepAction.addSysPath
          (depPath denvAbsent "pyinstaller" pyinstallerInfo)] "x").2.1 rfl
  · exact (C6_provisioner denvAbsent envRestart true [] [] "x").2.2.1 rfl
  · exact (C6_provisioner denvAbsent envDepFail true [] []
      "download failed").2.2.2 rfl

theorem cleanupResult_ok (env : Env) (hc1 : env.removeStubErr = none)
    (hc2 : env.buildDirExists = true → env.rmBuildErr = none)
    (hc3 : env.specExists = true → env.rmSpecErr = none) :
    cleanupResult env = (true, none) := by
  unfold cleanupResult
  rw [hc1]
  cases hb : env.buildDirExists <;> cases hsp2 : env.specExists
  · simp
  · simp [hc3 hsp2]
  · simp [hc2 hb]
  · simp [hc2 hb, hc3 hsp2]

/-- C7: on a fully successful conversion — provisioning finds everything
installed, both paths valid, a target found, output directory available,
stub write, bundler import and run all succeed, and every cleanup deletion
succeeds — the subsequence of progress values in the queue trace is
exactly 0, 20, 40, 60, 80, 100 in that order, followed by the success
event and then the done event. -/
theorem C7_success_trace (env : Env) (f : String) (ispy : Bool)
    (h : ReachesBundle env f ispy)
    (hc1 : env.removeStubErr = none)
    (hc2 : env.buildDirExists = true → env.rmBuildErr = none)
    (hc3 : env.specExists = true → env.rmSpecErr = none) :
    keyTrace (convert_app env).events =
      [KeyEvent.prog 0, KeyEvent.prog 20, KeyEvent.prog 40,
        KeyEvent.prog 60, KeyEvent.prog 80, KeyEvent.prog 100,
        KeyEvent.succ, KeyEvent.fin] := by
  obtain ⟨hdeps, hs, ho, hse, hscan, hout, hwe, hie, hpe⟩ := h
  have hcr := cleanupResult_ok env hc1 hc2 hc3
  unfold convert_app convertBody
  rcases hdr : ensure_dependencies env.depEnv with e | ⟨b, sp, acts⟩ <;>
    rw [hdr] at hdeps <;> simp [depsOk] at hdeps
  subst hdeps
  unfold stageOutput stageStub stageBundle stageFinish
  rw [hcr]
  have houtr : (if env.outputExists = true then true else false) = true ∨
      env.mkdirErr = none := by
    rcases hout with hout | hout
    · left; simp [hout]
    · right; exact hout
  rcases hex : env.outputExists <;> cases hw : env.window_var <;>
    simp [hs, ho, hse, hscan, hwe, hie, hpe, hex, hw, keyTrace, keyOf,
      List.filterMap_append, out0]
  · rcases hout with hout | hout
    · rw [hex] at hout
      simp at hout
    · simp [hout, keyTrace, keyOf, List.filterMap_append]
  · rcases hout with hout | hout
    · rw [hex] at hout
      simp at hout
    · simp [hout, keyTrace, keyOf, List.filterMap_append]

/-- C7 witness: the concrete fully successful run. -/
theorem C7_success_trace_witness :
    keyTrace (convert_app envSuccess).events =
      [KeyEvent.prog 0, KeyEvent.prog 20, KeyEvent.prog 40,
        KeyEvent.prog 60, KeyEvent.prog 80, KeyEvent.prog 100,
        KeyEvent.succ, KeyEvent.fin] :=
  C7_success_trace envSuccess "app.py" true
    ⟨by decide, by decide, by decide, by decide, by decide,
      Or.inl (by decide), rfl, rfl, rfl⟩
    rfl (fun _ => rfl) (fun _ => rfl)

/-- C8: when the bundler stage completed but a cleanup deletion raises,
the failure is only recorded as a warning: the run still enqueues the
success event, enqueues no error event, and enqueues exactly one done
event, so the conversion is not reported as failed. -/
theorem C8_cleanup_warning (env : Env) (f e : String) (ispy : Bool)
    (h : ReachesBundle env f ispy)
    (hfail : (cleanupResult env).2 = some e) :
    (convert_app env).warnings =
      ["Failed to clean up temporary files: " ++ e] ∧
    (∃ m, Event.success m ∈ (convert_app env).events) ∧
    (convert_app env).events.countP isErrorEv = 0 ∧
    doneCount (convert_app env).events = 1 := by
  obtain ⟨hdeps, hs, ho, hse, hscan, hout, hwe, hie, hpe⟩ := h
  rcases hcr : cleanupResult env with ⟨removed, w⟩
  rw [hcr] at hfail
  simp at hfail
  subst hfail
  unfold convert_app convertBody
  rcases hdr : ensure_dependencies env.depEnv with e2 | ⟨b, sp, acts⟩ <;>
    rw [hdr] at hdeps <;> simp [depsOk] at hdeps
  subst hdeps
  unfold stageOutput stageStub stageBundle stageFinish
  rw [hcr]
  by_cases hex : env.outputExists = true
  · cases hw : env.window_var <;>
      simp [hs, ho, hse, hscan, hwe, hie, hpe, hex, hw, out0, doneCount,
        List.countP_append, List.countP_cons, isErrorEv, isDone]
  · have hmk : env.mkdirErr = none := by
      rcases hout with hout | hout
      · exact absurd hout hex
      · exact hout
    simp only [Bool.not_eq_true] at hex
    cases hw : env.window_var <;>
      simp [hs, ho, hse, hscan, hwe, hie, hpe, hex, hmk, hw, out0,
        doneCount, List.countP_append, List.countP_cons, isErrorEv, isDone]

/-- C8 witness: a run whose stub deletion raises still succeeds. -/
theorem C8_cleanup_warning_witness :
    (convert_app envCleanupFail).warnings =
      ["Failed to clean up temporary files: " ++ "locked"] ∧
    (∃ m, Event.success m ∈ (convert_app envCleanupFail).events) ∧
    (convert_app envCleanupFail).events.countP isErrorEv = 0 ∧
    doneCount (convert_app envCleanupFail).events = 1 :=
  C8_cleanup_warning envCleanupFail "app.py" "locked" true
    ⟨by decide, by decide, by decide, by decide, by decide,
      Or.inl (by decide), rfl, rfl, rfl⟩ rfl

/-- C10: the scanner selects candidates purely by name suffix over the raw
directory listing and never consults the entry type: the selection is a
function of the listing names alone, and any entry whose name ends in .exe
or .py — a directory so named included, since DirEntry.isDir is ignored —
is eligible and is returned when it is the first match. -/
theorem C10_name_only (l1 l2 : List DirEntry) (d : DirEntry)
    (rest : List DirEntry) :
    (l1.map DirEntry.name = l2.map DirEntry.name →
      scanTarget (l1.map DirEntry.name) =
        scanTarget (l2.map DirEntry.name)) ∧
    (endsWithStr d.name ".exe" = true →
      scanTarget ((d :: rest).map DirEntry.name) = some (d.name, false)) ∧
    (endsWithStr d.name ".py" = true →
      exeFiles ((d :: rest).map DirEntry.name) = [] →
      scanTarget ((d :: rest).map DirEntry.name) = some (d.name, true)) := by
  refine ⟨fun hmap => by rw [hmap], ?_, ?_⟩
  · intro hexe
    unfold scanTarget exeFiles
    simp [List.filter_cons, hexe]
  · intro hpy hno
    unfold scanTarget
    rw [hno]
    unfold pyFiles
    simp [List.filter_cons, hpy]

/-- C10 witness: a directory named like an executable or a script is
selected by the scanner. -/
theorem C10_name_only_witness :
    scanTarget (([{ name := "sub.exe", isDir := true }] :
        List DirEntry).map DirEntry.name) = some ("sub.exe", false) ∧
    scanTarget (([{ name := "pkg.py", isDir := true }] :
        List DirEntry).map DirEntry.name) = some ("pkg.py", true) :=
  ⟨(C10_name_only [] [] { name := "sub.exe", isDir := true } []).2.1
      (by decide),
    (C10_name_only [] [] { name := "pkg.py", isDir := true } []).2.2
      (by decide) (by decide)⟩

end PyExeBundler
